import Mathlib

/-!
Verification development for the AION-R2 MCP server protocol engine
(src/mcp/server.rs, src/mcp/types.rs, src/util.rs, src/errors.rs,
src/tools/inference.rs, src/tools/analytics.rs, src/api/client.rs).

The Rust code is shallowly embedded:
- JSON values are the inductive `Json` (numbers as `Int`; the claims under
  study never involve floating point payload arithmetic).
- serde derive semantics for the request/response structs are translated
  field by field, including the serde quirk that a JSON `null` on an
  `Option` field decodes to `None`, the `skip_serializing_if` attributes,
  and duplicate/missing field errors.
- The serde_json text layer (an external library, not repository code) is
  abstracted: a message body is either `none` (text that is not valid
  JSON) or `some j` for the parsed value, and in the framer-level run
  loop the text parser is an arbitrary function parameter.
- The backend ApiClient performs network calls, so the capability gateway
  is a record of abstract functions returning `Except`; its error type
  mirrors an anyhow error that may or may not downcast to `ServerError`.
- The stdin byte stream is modeled as a list of characters (bytes of the
  claims under study are ASCII; UTF-8 validity of message bodies is
  abstracted away and noted where it matters).
- Recursion over the stream uses a fuel argument instantiated with
  `length + 1`, which is always sufficient (each loop iteration consumes
  at least one character); a fuel-irrelevance lemma is proved.
-/

namespace Aionr2

/-- Model of serde_json::Value. -/
inductive Json where
  | null : Json
  | bool (b : Bool) : Json
  | num (n : Int) : Json
  | str (s : String) : Json
  | arr (elems : List Json) : Json
  | obj (fields : List (String × Json)) : Json

/-- First binding of a key in a JSON object field list. -/
def jlookup (fs : List (String × Json)) (k : String) : Option Json :=
  match fs with
  | [] => none
  | (k2, v) :: rest => if k2 = k then some v else jlookup rest k

/-- Number of bindings of a key, used to model the serde duplicate-field error. -/
def fieldCount (fs : List (String × Json)) (k : String) : Nat :=
  (fs.filter (fun p => p.1 = k)).length

/-- Model of Value::index for a string key (serde_json Index on Value):
an object yields the field value or Null; any other value yields Null. -/
def Json.index (j : Json) (k : String) : Json :=
  match j with
  | .obj fs => (jlookup fs k).getD .null
  | _ => .null

/-- Model of Value::as_str. -/
def Json.asStr : Json → Option String
  | .str s => some s
  | _ => none

/-- Model of Value::get for a string key: Some only on objects having the key. -/
def Json.getKey (j : Json) (k : String) : Option Json :=
  match j with
  | .obj fs => jlookup fs k
  | _ => none

/-- An ASCII single quote, kept out of string literals. -/
def apos : String := String.singleton (Char.ofNat 39)

-- JSON-RPC 2.0 structures (src/mcp/types.rs)

/-- JsonRpcRequest (src/mcp/types.rs). Both option fields carry serde
default-on-missing semantics, and a present JSON null also decodes to none. -/
structure JsonRpcRequest where
  jsonrpc : String
  method : String
  params : Option Json
  id : Option Json

/-- JsonRpcError (src/mcp/types.rs); code is an i32. -/
structure JsonRpcError where
  code : Int
  message : String
  data : Option Json

/-- JsonRpcResponse (src/mcp/types.rs); result and error are skipped when
absent, id is a mandatory plain Value. -/
structure JsonRpcResponse where
  jsonrpc : String
  result : Option Json
  error : Option JsonRpcError
  id : Json

/-- ToolsCallParams (src/mcp/types.rs). -/
structure ToolsCallParams where
  name : String
  inputs : Json

/-- ResourcesListParams (src/mcp/types.rs). -/
structure ResourcesListParams where
  uri : String

/-- ToolDefinition (src/mcp/types.rs). -/
structure ToolDefinition where
  name : String
  description : String
  inputs : Json

/-- serde semantics for an Option field of Value type: a missing field and a
present JSON null both become none. -/
def decodeOptValue : Option Json → Option Json
  | none => none
  | some .null => none
  | some v => some v

/-- serde derive deserializer for JsonRpcRequest. Unknown fields are ignored
(no deny_unknown_fields); a duplicate known field, a missing required field,
a wrongly typed field, or a non-object all error. Error texts are modeled,
not byte-exact serde messages; no claim depends on their wording. -/
def decodeRequest (j : Json) : Except String JsonRpcRequest :=
  match j with
  | .obj fs =>
    if 2 ≤ fieldCount fs "jsonrpc" then .error "duplicate field jsonrpc"
    else if 2 ≤ fieldCount fs "method" then .error "duplicate field method"
    else if 2 ≤ fieldCount fs "params" then .error "duplicate field params"
    else if 2 ≤ fieldCount fs "id" then .error "duplicate field id"
    else
      match jlookup fs "jsonrpc" with
      | some (.str ver) =>
        match jlookup fs "method" with
        | some (.str m) =>
          .ok { jsonrpc := ver, method := m,
                params := decodeOptValue (jlookup fs "params"),
                id := decodeOptValue (jlookup fs "id") }
        | some _ => .error "invalid type for field method"
        | none => .error "missing field method"
      | some _ => .error "invalid type for field jsonrpc"
      | none => .error "missing field jsonrpc"
  | _ => .error "invalid type, expected struct JsonRpcRequest"

/-- serde derive deserializer for ToolsCallParams. -/
def decodeToolsCallParams (j : Json) : Except String ToolsCallParams :=
  match j with
  | .obj fs =>
    if 2 ≤ fieldCount fs "name" then .error "duplicate field name"
    else if 2 ≤ fieldCount fs "inputs" then .error "duplicate field inputs"
    else
      match jlookup fs "name" with
      | some (.str n) =>
        match jlookup fs "inputs" with
        | some v => .ok { name := n, inputs := v }
        | none => .error "missing field inputs"
      | some _ => .error "invalid type for field name"
      | none => .error "missing field name"
  | _ => .error "invalid type, expected struct ToolsCallParams"

/-- serde derive deserializer for ResourcesListParams. -/
def decodeResourcesListParams (j : Json) : Except String ResourcesListParams :=
  match j with
  | .obj fs =>
    if 2 ≤ fieldCount fs "uri" then .error "duplicate field uri"
    else
      match jlookup fs "uri" with
      | some (.str u) => .ok { uri := u }
      | some _ => .error "invalid type for field uri"
      | none => .error "missing field uri"
  | _ => .error "invalid type, expected struct ResourcesListParams"

/-- i32 range check applied by serde when deserializing the error code. -/
def i32InRange (n : Int) : Bool :=
  decide (-2147483648 ≤ n) && decide (n < 2147483648)

/-- serde Serialize for JsonRpcError: code, message, and data only when
present (skip_serializing_if on data). -/
def encodeJsonRpcError (e : JsonRpcError) : Json :=
  .obj ([("code", .num e.code), ("message", .str e.message)] ++
    (match e.data with
     | some d => [("data", d)]
     | none => []))

/-- serde Deserialize for JsonRpcError. -/
def decodeJsonRpcError (j : Json) : Except String JsonRpcError :=
  match j with
  | .obj fs =>
    if 2 ≤ fieldCount fs "code" then .error "duplicate field code"
    else if 2 ≤ fieldCount fs "message" then .error "duplicate field message"
    else if 2 ≤ fieldCount fs "data" then .error "duplicate field data"
    else
      match jlookup fs "code" with
      | some (.num n) =>
        if i32InRange n then
          match jlookup fs "message" with
          | some (.str m) =>
            .ok { code := n, message := m, data := decodeOptValue (jlookup fs "data") }
          | some _ => .error "invalid type for field message"
          | none => .error "missing field message"
        else .error "number out of range for i32"
      | some _ => .error "invalid type for field code"
      | none => .error "missing field code"
  | _ => .error "invalid type, expected struct JsonRpcError"

/-- serde Serialize for JsonRpcResponse: jsonrpc, then result and error only
when present (skip_serializing_if), then the mandatory id. -/
def encodeResponse (r : JsonRpcResponse) : Json :=
  .obj ([("jsonrpc", .str r.jsonrpc)] ++
    (match r.result with
     | some v => [("result", v)]
     | none => []) ++
    (match r.error with
     | some e => [("error", encodeJsonRpcError e)]
     | none => []) ++
    [("id", r.id)])

/-- serde Deserialize for JsonRpcResponse. As on every Option field, a
present JSON null on result or error decodes to none. -/
def decodeResponse (j : Json) : Except String JsonRpcResponse :=
  match j with
  | .obj fs =>
    if 2 ≤ fieldCount fs "jsonrpc" then .error "duplicate field jsonrpc"
    else if 2 ≤ fieldCount fs "result" then .error "duplicate field result"
    else if 2 ≤ fieldCount fs "error" then .error "duplicate field error"
    else if 2 ≤ fieldCount fs "id" then .error "duplicate field id"
    else
      match jlookup fs "jsonrpc" with
      | some (.str ver) =>
        match jlookup fs "id" with
        | some idv =>
          match decodeOptValue (jlookup fs "error") with
          | some ej =>
            match decodeJsonRpcError ej with
            | .ok e =>
              .ok { jsonrpc := ver, result := decodeOptValue (jlookup fs "result"),
                    error := some e, id := idv }
            | .error msg => .error msg
          | none =>
            .ok { jsonrpc := ver, result := decodeOptValue (jlookup fs "result"),
                  error := none, id := idv }
        | none => .error "missing field id"
      | some _ => .error "invalid type for field jsonrpc"
      | none => .error "missing field jsonrpc"
  | _ => .error "invalid type, expected struct JsonRpcResponse"

-- Errors (src/errors.rs)

/-- ServerError (src/errors.rs). -/
inductive ServerError where
  | ioErr (msg : String)
  | jsonErr (msg : String)
  | apiClientErr (msg : String)
  | invalidJsonRpcRequest (msg : String)
  | methodNotFound (msg : String)
  | invalidParameters (method : String) (details : String)
  | toolError (msg : String)
  | configError (msg : String)

/-- The thiserror Display strings of ServerError. -/
def ServerError.display : ServerError → String
  | .ioErr m => "I/O error: " ++ m
  | .jsonErr m => "JSON serialization/deserialization error: " ++ m
  | .apiClientErr m => "API client error: " ++ m
  | .invalidJsonRpcRequest m => "Invalid JSON-RPC request: " ++ m
  | .methodNotFound m => "Method not found: " ++ m
  | .invalidParameters method details =>
      "Invalid parameters for method " ++ apos ++ method ++ apos ++ ": " ++ details
  | .toolError m => "Internal tool error: " ++ m
  | .configError m => "Configuration error: " ++ m

/-- An anyhow::Error as dispatch sees it: either it downcasts to a
ServerError, or it is some other error (serde_json::Error, reqwest::Error)
carrying only a display string. -/
inductive AnyError where
  | server (e : ServerError)
  | other (msg : String)

/-- Display of the anyhow error (to_string in dispatch). -/
def AnyError.display : AnyError → String
  | .server e => e.display
  | .other m => m

-- Capability gateway (src/api/client.rs, consumed abstractly)

/-- The backend capability gateway. ApiClient performs network requests, so
it enters the model as a record of abstract functions with the same
signatures and error discipline as ApiClient run_inference, data_analysis
and list_models. -/
structure Gateway where
  runInference : String → String → Option Json → Except AnyError Json
  dataAnalysis : Json → Json → Except AnyError Json
  listModels : Unit → Except AnyError Json

/-- An HTTP response as ApiClient::handle_response consumes it: a status
code, the body parsed as JSON when it is valid JSON, and the raw body text.
When reading the failure body text itself fails, bodyText models the
fallback string the code substitutes. -/
structure HttpResponse where
  status : Nat
  bodyJson : Option Json
  bodyText : String

/-- ApiClient::handle_response (src/api/client.rs lines 37 to 49): success
statuses (200 to 299) forward the JSON body, any other status becomes
ServerError::ToolError with the status and the error body embedded; a
success body that is not JSON is a reqwest error, which does not downcast
to ServerError. The Rust status Display also appends a canonical reason
phrase after the number; only the number is modeled, and no claim depends
on the phrase. -/
def handle_response (r : HttpResponse) : Except AnyError Json :=
  if 200 ≤ r.status ∧ r.status ≤ 299 then
    match r.bodyJson with
    | some v => .ok v
    | none => .error (.other ("error decoding response body: " ++ r.bodyText))
  else
    .error (.server (.toolError
      ("API request failed with status " ++ toString r.status ++ ": " ++ r.bodyText)))

-- Tools (src/tools/inference.rs, src/tools/analytics.rs)

/-- run_inference (src/tools/inference.rs): model is validated before
prompt, each via Value indexing plus as_str. -/
def run_inference (gw : Gateway) (inputs : Json) : Except AnyError Json :=
  match (inputs.index "model").asStr with
  | none => .error (.server (.invalidParameters "run_inference"
      ("Missing or invalid " ++ apos ++ "model" ++ apos ++ " field")))
  | some model =>
    match (inputs.index "prompt").asStr with
    | none => .error (.server (.invalidParameters "run_inference"
        ("Missing or invalid " ++ apos ++ "prompt" ++ apos ++ " field")))
    | some prompt => gw.runInference model prompt (inputs.getKey "params")

/-- data_analysis (src/tools/analytics.rs): data then ops via Value::get. -/
def data_analysis (gw : Gateway) (inputs : Json) : Except AnyError Json :=
  match inputs.getKey "data" with
  | none => .error (.server (.invalidParameters "data_analysis"
      ("Missing " ++ apos ++ "data" ++ apos ++ " field")))
  | some dat =>
    match inputs.getKey "ops" with
    | none => .error (.server (.invalidParameters "data_analysis"
        ("Missing " ++ apos ++ "ops" ++ apos ++ " field")))
    | some ops => gw.dataAnalysis dat ops

-- Server (src/mcp/server.rs)

/-- MCP_VERSION (src/mcp/server.rs line 17). -/
def mcpVersionStr : String := "2024-11-05"

/-- The crate version from CARGO_PKG_VERSION. Modelled from the spec: the
value is build metadata (Cargo.toml is not under src); the spec only says a
server name/version pair is returned, and no claim depends on the value. -/
def cargoPkgVersion : String := "0.1.0"

/-- handle_initialize (src/mcp/server.rs lines 127 to 138): parameters are
ignored, a fixed InitializeResult is serialized. -/
def handleInit (_params : Option Json) : Except AnyError Json :=
  .ok (.obj [("protocolVersion", .str mcpVersionStr),
             ("server", .obj [("name", .str "aionr2"), ("version", .str cargoPkgVersion)])])

/-- The static tool catalog of handle_tools_list (src/mcp/server.rs lines
141 to 167), in declaration order. -/
def toolCatalog : List ToolDefinition :=
  [ { name := "run_inference",
      description := "Runs AI inference by calling the backend AION-R API.",
      inputs := .obj [("type", .str "object"),
        ("properties", .obj [("model", .obj [("type", .str "string")]),
                             ("prompt", .obj [("type", .str "string")]),
                             ("params", .obj [("type", .str "object")])]),
        ("required", .arr [.str "model", .str "prompt"])] },
    { name := "data_analysis",
      description := "Runs data analysis by calling the backend AION-R API.",
      inputs := .obj [("type", .str "object"),
        ("properties", .obj [("data", .obj []),
                             ("ops", .obj [("type", .str "array")])]),
        ("required", .arr [.str "data", .str "ops"])] } ]

/-- serde Serialize for ToolDefinition. -/
def encodeToolDefinition (t : ToolDefinition) : Json :=
  .obj [("name", .str t.name), ("description", .str t.description), ("inputs", t.inputs)]

/-- handle_tools_list (src/mcp/server.rs lines 140 to 170). -/
def handle_tools_list : Except AnyError Json :=
  .ok (.obj [("tools", .arr (toolCatalog.map encodeToolDefinition))])

/-- handle_tools_call (src/mcp/server.rs lines 172 to 186): the serde
failure on the params shape is an anyhow error that is not a ServerError. -/
def handle_tools_call (gw : Gateway) (params : Option Json) : Except AnyError Json :=
  match decodeToolsCallParams (params.getD .null) with
  | .error msg => .error (.other msg)
  | .ok p =>
    match p.name with
    | "run_inference" => run_inference gw p.inputs
    | "data_analysis" => data_analysis gw p.inputs
    | _ => .error (.server (.methodNotFound
        ("Tool " ++ apos ++ p.name ++ apos ++ " not found")))

/-- handle_resources_list (src/mcp/server.rs lines 188 to 197). -/
def handle_resources_list (gw : Gateway) (params : Option Json) : Except AnyError Json :=
  match decodeResourcesListParams (params.getD .null) with
  | .error msg => .error (.other msg)
  | .ok p =>
    match p.uri with
    | "aion-r://models/catalog" => gw.listModels ()
    | _ => .ok (.arr [])

/-- The error-to-code mapping of dispatch (src/mcp/server.rs lines 88 to
97): downcast to ServerError, then the four special arms, otherwise the
generic -32603 with the error display. -/
def errCodeMsg (e : AnyError) : Int × String :=
  match e with
  | .server (.invalidJsonRpcRequest s) => (-32600, s)
  | .server (.methodNotFound s) => (-32601, "Method not found: " ++ s)
  | .server (.invalidParameters method details) =>
      (-32602, AnyError.display (.server (.invalidParameters method details)))
  | .server (.toolError s) => (-32000, s)
  | e2 => (-32603, e2.display)

/-- The method-resolution match of dispatch (src/mcp/server.rs lines 71 to
77), factored out of the response construction below for lemma reuse. -/
def dispatchResult (gw : Gateway) (req : JsonRpcRequest) : Except AnyError Json :=
  match req.method with
  | "initialize" => handleInit req.params
  | "tools/list" => handle_tools_list
  | "tools/call" => handle_tools_call gw req.params
  | "resources/list" => handle_resources_list gw req.params
  | _ => .error (.server (.methodNotFound req.method))

/-- dispatch (src/mcp/server.rs lines 68 to 111). -/
def dispatch (gw : Gateway) (req : JsonRpcRequest) : JsonRpcResponse :=
  let request_id := req.id.getD .null
  match dispatchResult gw req with
  | .ok v => { jsonrpc := "2.0", result := some v, error := none, id := request_id }
  | .error e =>
      { jsonrpc := "2.0", result := none,
        error := some { code := (errCodeMsg e).1, message := (errCodeMsg e).2, data := none },
        id := request_id }

/-- The -32700 response built by create_error_response(None, ...) in the
run loop (src/mcp/server.rs lines 38 to 46 and 113 to 125). -/
def parseErrorResponse (emsg : String) : JsonRpcResponse :=
  { jsonrpc := "2.0", result := none,
    error := some { code := -32700, message := "Parse error: " ++ emsg, data := none },
    id := .null }

/-- serde_json::from_str for JsonRpcRequest on a message body, with the
text layer abstracted: none stands for body text that is not valid JSON. -/
def decodeBody : Option Json → Except String JsonRpcRequest
  | none => .error "invalid JSON"
  | some j => decodeRequest j

/-- The responses the run loop (src/mcp/server.rs lines 35 to 56) writes
for one message body: a parse failure writes one -32700 response with null
id; a decoded request is dispatched, and the response is written exactly
when the decoded id field was present, otherwise dropped. -/
def responsesForBody (gw : Gateway) (body : Option Json) : List JsonRpcResponse :=
  match decodeBody body with
  | .error e => [parseErrorResponse e]
  | .ok req =>
    match req.id with
    | some _ => [dispatch gw req]
    | none => []

-- Transport framer (src/util.rs)

/-- One read_line call: consume characters up to and including the first
newline; at end of input without a newline, the remaining characters form
the line. An empty input models read_line returning 0 (EOF). -/
def takeLine : List Char → List Char × List Char
  | [] => ([], [])
  | c :: rest =>
    if c = '\n' then ([c], rest)
    else
      let p := takeLine rest
      (c :: p.1, p.2)

/-- Rust str::trim on a line (whitespace on both ends). -/
def trimChars (l : List Char) : List Char :=
  ((l.dropWhile Char.isWhitespace).reverse.dropWhile Char.isWhitespace).reverse

/-- splitn(2, colon): the part before the first colon and the rest, or
nothing when the line has no colon (then parts.len() is 1 in the code and
the header test fails). -/
def splitColon : List Char → Option (List Char × List Char)
  | [] => none
  | c :: rest =>
    if c = ':' then some ([], rest)
    else
      match splitColon rest with
      | some (a, b) => some (c :: a, b)
      | none => none

/-- usize::from_str: an optional leading plus sign, then one or more
digits, rejecting anything else and values at or above 2 to the 64. -/
def parseUsizeStr (l : List Char) : Option Nat :=
  let digits := match l with
    | '+' :: rest => rest
    | _ => l
  if digits.isEmpty then none
  else if digits.all Char.isDigit then
    let n := digits.foldl (fun acc c => acc * 10 + (c.toNat - 48)) 0
    if n < 18446744073709551616 then some n else none
  else none

/-- The header-line step of read_message (src/util.rs lines 24 to 29): a
Key: Value line whose trimmed key matches Content-Length case
insensitively and whose trimmed value parses as usize overwrites the
running content_length; every other line leaves it unchanged. -/
def updateContentLength (line : List Char) (cl : Nat) : Nat :=
  match splitColon (trimChars line) with
  | some (key, value) =>
    if (trimChars key).map Char.toLower = "content-length".toList then
      match parseUsizeStr (trimChars value) with
      | some n => n
      | none => cl
    else cl
  | none => cl

/-- The header loop of read_message (src/util.rs lines 12 to 30), with a
fuel argument for structural recursion: none models EOF while expecting a
header line; some (cl, rest) models reaching the blank line with the
accumulated content_length. Fuel length + 1 always suffices because every
line consumes at least one character. -/
def headerLoopF : Nat → List Char → Nat → Option (Nat × List Char)
  | 0, _, _ => none
  | _ + 1, [], _ => none
  | fuel + 1, c :: rest, cl =>
    let p := takeLine (c :: rest)
    if (trimChars p.1).isEmpty then some (cl, p.2)
    else headerLoopF fuel p.2 (updateContentLength p.1 cl)

/-- The header loop at its canonical, always-sufficient fuel. -/
def headerLoop (s : List Char) (cl : Nat) : Option (Nat × List Char) :=
  headerLoopF (s.length + 1) s cl

/-- read_message (src/util.rs lines 8 to 40). Ok none is both the EOF
signal and the skipped zero-length frame; the error case models read_exact
hitting end of input before content_length bytes arrived (that anyhow
error propagates out of the run loop). Body bytes are modeled as the
characters themselves, so the from_utf8 failure path is outside this
model; see the C3 analysis. -/
def read_message (s : List Char) : Except String (Option (String × List Char)) :=
  match headerLoop s 0 with
  | none => .ok none
  | some (cl, rest) =>
    if 0 < cl then
      if cl ≤ rest.length then .ok (some (⟨rest.take cl⟩, rest.drop cl))
      else .error "unexpected end of file while reading the message body"
    else .ok none

/-- The run loop (src/mcp/server.rs lines 29 to 66) over the raw input
stream, with a fuel argument for structural recursion (canonical fuel
length + 1 always suffices, see runF_fuel_irrelevant). parseFn is the
serde_json text parser, external to the repository, abstracted as an
arbitrary text-to-JSON partial function. Both Ok none (EOF or skipped
frame) and a read_message error end the loop; writes are modeled as the
returned list of responses. -/
def runF (parseFn : String → Option Json) (gw : Gateway) :
    Nat → List Char → List JsonRpcResponse
  | 0, _ => []
  | fuel + 1, s =>
    match read_message s with
    | .error _ => []
    | .ok none => []
    | .ok (some (body, rest)) =>
        responsesForBody gw (parseFn body) ++ runF parseFn gw fuel rest

/-- The run loop at its canonical fuel. -/
def run (parseFn : String → Option Json) (gw : Gateway) (s : List Char) :
    List JsonRpcResponse :=
  runF parseFn gw (s.length + 1) s

-- Substring test (used to state that an error message names a field)

/-- Whether pat is a prefix of s. -/
def listStartsWith : List Char → List Char → Bool
  | _, [] => true
  | [], _ :: _ => false
  | c :: cs, p :: ps => c == p && listStartsWith cs ps

/-- Whether pat occurs contiguously in s. -/
def listContainsSub : List Char → List Char → Bool
  | [], pat => listStartsWith [] pat
  | c :: cs, pat => listStartsWith (c :: cs) pat || listContainsSub cs pat

/-- Whether pat occurs contiguously in s, on strings. -/
def strContains (s pat : String) : Bool := listContainsSub s.toList pat.toList

-- Sample instances used by the concrete witness and counterexample theorems

/-- A gateway whose calls all succeed with a null payload. -/
def trivialGateway : Gateway :=
  { runInference := fun _ _ _ => .ok .null,
    dataAnalysis := fun _ _ => .ok .null,
    listModels := fun _ => .ok .null }

/-- A gateway whose calls all fail with an application error, as
handle_response produces for a non-success backend status. -/
def failingGateway : Gateway :=
  { runInference := fun _ _ _ => .error (.server (.toolError "backend exploded")),
    dataAnalysis := fun _ _ => .error (.server (.toolError "backend exploded")),
    listModels := fun _ => .error (.server (.toolError "backend exploded")) }

/-- A well-formed tools/call request envelope for a given tool name,
inputs and id. -/
def toolCallReq (name : String) (inputs idv : Json) : JsonRpcRequest :=
  { jsonrpc := "2.0", method := "tools/call",
    params := some (.obj [("name", .str name), ("inputs", inputs)]), id := some idv }

def c1Body : Option Json :=
  some (.obj [("jsonrpc", .str "2.0"), ("method", .str "tools/list"), ("id", .num 1)])

def c1Req : JsonRpcRequest :=
  { jsonrpc := "2.0", method := "tools/list", params := none, id := some (.num 1) }

def c2Body : Option Json :=
  some (.obj [("jsonrpc", .str "2.0"), ("method", .str "tools/list"), ("id", Json.null)])

def c3Body : Option Json := some (.obj [("jsonrpc", .str "2.0"), ("id", .num 5)])

/-- A text parser for the concrete streams below: maps the two-character body
consisting of an opening and a closing curly brace to the empty JSON object. -/
def frameParse : String → Option Json :=
  fun s => if s = "\x7b\x7d" then some (.obj []) else none

def goodFrame : List Char := "Content-Length: 2\r\n\r\n\x7b\x7d".toList

def headerlessThenGood : List Char :=
  "X: 1\r\n\r\nContent-Length: 2\r\n\r\n\x7b\x7d".toList

/-- A response whose result is present but is the JSON null value, as a
handler forwarding a null backend payload would produce. -/
def c9Resp : JsonRpcResponse :=
  { jsonrpc := "2.0", result := some Json.null, error := none, id := .num 1 }

-- Supporting lemmas

theorem takeLine_rest_lt : ∀ c : Char, ∀ s : List Char,
    (takeLine (c :: s)).2.length < (c :: s).length := by
  intro c s
  induction s generalizing c with
  | nil =>
    by_cases h : c = '\n' <;> simp [takeLine, h]
  | cons d t ih =>
    by_cases h : c = '\n'
    · simp [takeLine, h]
    · have := ih d
      simp only [takeLine, if_neg h]
      simpa [Nat.lt_succ_iff] using Nat.le_of_lt this

theorem headerLoopF_rest_lt : ∀ fuel : Nat, ∀ s : List Char, ∀ cl cl2 : Nat,
    ∀ rest : List Char, headerLoopF fuel s cl = some (cl2, rest) →
    rest.length < s.length := by
  intro fuel
  induction fuel with
  | zero => intro s cl cl2 rest h; simp [headerLoopF] at h
  | succ n ih =>
    intro s cl cl2 rest h
    match s with
    | [] => simp [headerLoopF] at h
    | c :: t =>
      simp only [headerLoopF] at h
      split at h
      · obtain ⟨h1, h2⟩ := Prod.mk.inj (Option.some.inj h)
        subst h2
        exact takeLine_rest_lt c t
      · exact Nat.lt_trans (ih _ _ _ _ h) (takeLine_rest_lt c t)

theorem read_message_rest_lt (s : List Char) (body : String) (rest : List Char)
    (h : read_message s = .ok (some (body, rest))) : rest.length < s.length := by
  unfold read_message at h
  split at h
  · simp at h
  · rename_i cl r hloop
    have hr := headerLoopF_rest_lt _ _ _ _ _ hloop
    split at h
    · split at h
      · obtain ⟨-, hrest⟩ := Prod.mk.inj (Option.some.inj (Except.ok.inj h))
        subst hrest
        have : (r.drop cl).length ≤ r.length := by
          simp [List.length_drop]
        omega
      · simp at h
    · simp at h

theorem runF_fuel_irrelevant (parseFn : String → Option Json) (gw : Gateway) :
    ∀ f g : Nat, ∀ s : List Char, s.length < f → s.length < g →
    runF parseFn gw f s = runF parseFn gw g s := by
  intro f
  induction f with
  | zero => intro g s hf; omega
  | succ n ih =>
    intro g s hf hg
    match g with
    | 0 => omega
    | m + 1 =>
      simp only [runF]
      split
      · rfl
      · rfl
      · rename_i body rest hread
        have hlt := read_message_rest_lt s body rest hread
        rw [ih m rest (by omega) (by omega)]

theorem run_step (parseFn : String → Option Json) (gw : Gateway)
    (s : List Char) (body : String) (rest : List Char)
    (h : read_message s = .ok (some (body, rest))) :
    run parseFn gw s = responsesForBody gw (parseFn body) ++ run parseFn gw rest := by
  have hlt := read_message_rest_lt s body rest h
  unfold run
  rw [show runF parseFn gw (s.length + 1) s =
      match read_message s with
      | .error _ => []
      | .ok none => []
      | .ok (some (body2, rest2)) =>
          responsesForBody gw (parseFn body2) ++ runF parseFn gw s.length rest2 from rfl]
  rw [h]
  exact congrArg (fun l => responsesForBody gw (parseFn body) ++ l)
    (runF_fuel_irrelevant parseFn gw s.length (rest.length + 1) rest (by omega) (by omega))

theorem run_stop (parseFn : String → Option Json) (gw : Gateway)
    (s : List Char) (h : read_message s = .ok none) :
    run parseFn gw s = [] := by
  unfold run
  rw [show runF parseFn gw (s.length + 1) s =
      match read_message s with
      | .error _ => []
      | .ok none => []
      | .ok (some (body2, rest2)) =>
          responsesForBody gw (parseFn body2) ++ runF parseFn gw s.length rest2 from rfl]
  rw [h]

-- Substring lemmas (used to state that an error message names a field)

theorem listStartsWith_append (p rest : List Char) :
    listStartsWith (p ++ rest) p = true := by
  induction p with
  | nil => cases rest <;> rfl
  | cons c cs ih => simp [listStartsWith, ih]

theorem listContainsSub_append (l pat : List Char) :
    listContainsSub (l ++ pat) pat = true := by
  induction l with
  | nil =>
    cases pat with
    | nil => rfl
    | cons p ps =>
      have h := listStartsWith_append (p :: ps) []
      rw [List.append_nil] at h
      simp [listContainsSub, h]
  | cons c cs ih => simp [listContainsSub, ih]

theorem strContains_append_right (a b : String) : strContains (a ++ b) b = true := by
  unfold strContains
  have h : (a ++ b).toList = a.toList ++ b.toList := by
    simp [String.toList, String.data_append]
  rw [h]
  exact listContainsSub_append _ _

-- Inversion and sample instances

theorem decodeOptValue_ne_some_null (o : Option Json) :
    decodeOptValue o ≠ some Json.null := by
  match o with
  | none => simp [decodeOptValue]
  | some v => cases v <;> simp [decodeOptValue]

theorem decodeOptValue_of_ne_null (v : Json) (h : v ≠ Json.null) :
    decodeOptValue (some v) = some v := by
  cases v with
  | null => exact absurd rfl h
  | bool b => rfl
  | num n => rfl
  | str s => rfl
  | arr l => rfl
  | obj fs => rfl

theorem decodeRequest_ok_inv (j : Json) (req : JsonRpcRequest)
    (h : decodeRequest j = .ok req) :
    ∃ fs, j = .obj fs ∧ req.params = decodeOptValue (jlookup fs "params") ∧
      req.id = decodeOptValue (jlookup fs "id") := by
  cases j with
  | null => simp [decodeRequest] at h
  | bool b => simp [decodeRequest] at h
  | num n => simp [decodeRequest] at h
  | str s => simp [decodeRequest] at h
  | arr l => simp [decodeRequest] at h
  | obj fs =>
    refine ⟨fs, rfl, ?_⟩
    simp only [decodeRequest] at h
    repeat' split at h
    any_goals exact Except.noConfusion h
    obtain hreq := Except.ok.inj h
    subst hreq
    exact ⟨rfl, rfl⟩

-- Dispatcher lemmas

theorem dispatch_ok (gw : Gateway) (req : JsonRpcRequest) (v : Json)
    (h : dispatchResult gw req = .ok v) :
    dispatch gw req =
      { jsonrpc := "2.0", result := some v, error := none, id := req.id.getD .null } := by
  simp only [dispatch, h]

theorem dispatch_error (gw : Gateway) (req : JsonRpcRequest) (e : AnyError)
    (h : dispatchResult gw req = .error e) :
    dispatch gw req =
      { jsonrpc := "2.0", result := none,
        error := some { code := (errCodeMsg e).1, message := (errCodeMsg e).2, data := none },
        id := req.id.getD .null } := by
  simp only [dispatch, h]

theorem dispatchResult_unknown (gw : Gateway) (req : JsonRpcRequest)
    (hm1 : req.method ≠ "initialize") (hm2 : req.method ≠ "tools/list")
    (hm3 : req.method ≠ "tools/call") (hm4 : req.method ≠ "resources/list") :
    dispatchResult gw req = .error (.server (.methodNotFound req.method)) := by
  unfold dispatchResult
  split
  · exact absurd (by assumption) hm1
  · exact absurd (by assumption) hm2
  · exact absurd (by assumption) hm3
  · exact absurd (by assumption) hm4
  · rfl

theorem handle_tools_call_unknown (gw : Gateway) (tname : String) (inputs : Json)
    (hn1 : tname ≠ "run_inference") (hn2 : tname ≠ "data_analysis") :
    handle_tools_call gw (some (.obj [("name", .str tname), ("inputs", inputs)])) =
      .error (.server (.methodNotFound
        ("Tool " ++ apos ++ tname ++ apos ++ " not found"))) := by
  unfold handle_tools_call
  rw [show decodeToolsCallParams
      ((some (Json.obj [("name", .str tname), ("inputs", inputs)])).getD .null) =
      .ok { name := tname, inputs := inputs } from rfl]
  split
  · rename_i msg heq
    exact Except.noConfusion heq
  · rename_i p heq
    obtain rfl := Except.ok.inj heq
    split
    · rename_i h
      exact absurd h hn1
    · rename_i h
      exact absurd h hn2
    · rfl

-- Claim C1

/-- Claim C1: for every message body that decodes to a JsonRpcRequest, the run
loop emits for that message exactly the singleton dispatch response when the
decoded id is present (and a decoded id is never the JSON null value), that
response carries the same id, and it contains exactly one of result and error;
when the decoded id is absent, zero responses are emitted regardless of the
dispatch outcome. -/
theorem c1_id_correlation (gw : Gateway) (body : Option Json) (req : JsonRpcRequest)
    (h : decodeBody body = .ok req) :
    responsesForBody gw body =
      (match req.id with
       | some _ => [dispatch gw req]
       | none => []) ∧
    req.id ≠ some Json.null ∧
    (dispatch gw req).id = req.id.getD Json.null ∧
    ((dispatch gw req).result.isSome ^^ (dispatch gw req).error.isSome) = true := by
  refine ⟨?_, ?_, ?_, ?_⟩
  · simp [responsesForBody, h]
  · cases body with
    | none => simp [decodeBody] at h
    | some j =>
      obtain ⟨fs, -, -, hid⟩ := decodeRequest_ok_inv j req h
      rw [hid]
      exact decodeOptValue_ne_some_null _
  · simp only [dispatch]
    split <;> rfl
  · simp only [dispatch]
    split <;> rfl

/-- Concrete instantiation of c1_id_correlation. -/
theorem c1_id_correlation_witness :
    responsesForBody trivialGateway c1Body = [dispatch trivialGateway c1Req] ∧
    c1Req.id ≠ some Json.null ∧
    (dispatch trivialGateway c1Req).id = c1Req.id.getD Json.null ∧
    ((dispatch trivialGateway c1Req).result.isSome ^^
      (dispatch trivialGateway c1Req).error.isSome) = true :=
  c1_id_correlation trivialGateway c1Body c1Req rfl

-- Claim C2

/-- Claim C2 counterexample: a request whose id field is present with value JSON
null decodes with id none (the serde Option field maps null to None), and the
run loop emits zero responses for it — no response with id null is ever
produced, refuting the claim at this concrete input. -/
theorem c2_null_id_counterexample :
    decodeBody c2Body =
      .ok { jsonrpc := "2.0", method := "tools/list", params := none, id := none } ∧
    responsesForBody trivialGateway c2Body = [] :=
  ⟨rfl, rfl⟩

/-- Claim C2 amended: a decoded request whose id field is present with value
JSON null is indistinguishable from one with the id absent — the decoder yields
id none — and it is treated as a notification: zero responses are emitted. -/
theorem c2_null_id_is_notification (gw : Gateway) (fs : List (String × Json))
    (req : JsonRpcRequest) (hdec : decodeRequest (.obj fs) = .ok req)
    (hid : jlookup fs "id" = some Json.null) :
    req.id = none ∧ responsesForBody gw (some (.obj fs)) = [] := by
  obtain ⟨fs2, hfs, -, hid2⟩ := decodeRequest_ok_inv _ _ hdec
  have hfs2 : fs2 = fs := (Json.obj.inj hfs).symm
  subst hfs2
  have hidnone : req.id = none := by rw [hid2, hid]; rfl
  refine ⟨hidnone, ?_⟩
  simp [responsesForBody, decodeBody, hdec, hidnone]

/-- Concrete instantiation of c2_null_id_is_notification. -/
theorem c2_null_id_is_notification_witness :
    ({ jsonrpc := "2.0", method := "tools/list", params := none, id := none } :
      JsonRpcRequest).id = none ∧
    responsesForBody trivialGateway
      (some (.obj [("jsonrpc", .str "2.0"), ("method", .str "tools/list"),
        ("id", Json.null)])) = [] :=
  c2_null_id_is_notification trivialGateway _ _ rfl rfl

-- Claim C3

/-- Claim C3 counterexample: this body is valid JSON carrying a salvageable id
(the number 5) but fails request decoding (its method field is missing); the
emitted -32700 response carries id null, never the salvaged id, refuting the
salvage clause of the claim at this concrete input. -/
theorem c3_id_never_salvaged_counterexample :
    responsesForBody trivialGateway c3Body = [parseErrorResponse "missing field method"] ∧
    (parseErrorResponse "missing field method").id = Json.null ∧
    Json.null ≠ Json.num 5 :=
  ⟨rfl, rfl, fun h => Json.noConfusion h⟩

/-- Claim C3 amended: for every framed message body (necessarily valid UTF-8
text in this model) that fails to decode as a JsonRpcRequest, the server emits
one -32700 response whose id is always null — an id is never salvaged from the
body — and then continues processing subsequent messages. (Bodies with invalid
UTF-8 bytes are outside this statement: in the code the String::from_utf8 error
propagates out of read_message and terminates the loop.) -/
theorem c3_parse_error_responds_null_id_and_continues (parseFn : String → Option Json)
    (gw : Gateway) (s rest : List Char) (body : String) (e : String)
    (h1 : read_message s = .ok (some (body, rest)))
    (h2 : decodeBody (parseFn body) = .error e) :
    run parseFn gw s = parseErrorResponse e :: run parseFn gw rest ∧
    (parseErrorResponse e).error =
      some { code := -32700, message := "Parse error: " ++ e, data := none } ∧
    (parseErrorResponse e).id = Json.null := by
  refine ⟨?_, rfl, rfl⟩
  rw [run_step parseFn gw s body rest h1]
  simp [responsesForBody, h2]

/-- Concrete instantiation of c3_parse_error_responds_null_id_and_continues. -/
theorem c3_parse_error_responds_null_id_and_continues_witness :
    run frameParse trivialGateway goodFrame =
      parseErrorResponse "missing field jsonrpc" :: run frameParse trivialGateway [] ∧
    (parseErrorResponse "missing field jsonrpc").error =
      some { code := -32700, message := "Parse error: " ++ "missing field jsonrpc",
             data := none } ∧
    (parseErrorResponse "missing field jsonrpc").id = Json.null :=
  c3_parse_error_responds_null_id_and_continues frameParse trivialGateway
    goodFrame [] "\x7b\x7d" "missing field jsonrpc" rfl rfl

-- Claim C4

/-- Claim C4 counterexample: a frame with no Content-Length header followed by
a well formed frame. read_message indeed yields no message for the first cycle,
but the run loop then emits nothing at all — while the very same loop run on
the subsequent frame alone emits a response. The server treated the
Content-Length-less frame as end of stream and shut down instead of going on to
the subsequent frame, refuting the claim at this concrete input. -/
theorem c4_counterexample :
    read_message headerlessThenGood = .ok none ∧
    run frameParse trivialGateway headerlessThenGood = [] ∧
    run frameParse trivialGateway goodFrame = [parseErrorResponse "missing field jsonrpc"] :=
  ⟨rfl, rfl, rfl⟩

/-- Claim C4 amended: when the header section of a frame leaves content_length
at zero (no Content-Length header parsed, or its value zero), read_message
yields no message for that cycle, and the run loop treats this outcome exactly
like end of stream: it stops, emitting nothing further; subsequent frames are
not processed. -/
theorem c4_zero_content_length_stops (parseFn : String → Option Json) (gw : Gateway)
    (s rest : List Char) (h : headerLoop s 0 = some (0, rest)) :
    read_message s = .ok none ∧ run parseFn gw s = [] := by
  have hr : read_message s = .ok none := by
    unfold read_message
    rw [h]
    rfl
  exact ⟨hr, run_stop parseFn gw s hr⟩

/-- Concrete instantiation of c4_zero_content_length_stops. -/
theorem c4_zero_content_length_stops_witness :
    read_message ("X: 1\r\n\r\n".toList) = .ok none ∧
    run frameParse trivialGateway ("X: 1\r\n\r\n".toList) = [] :=
  c4_zero_content_length_stops frameParse trivialGateway _ [] rfl

-- Claim C5

/-- Claim C5: a decoded request whose method is none of initialize, tools/list,
tools/call and resources/list is answered with error code -32601; a tools/call
whose params decode to a tool name that is neither run_inference nor
data_analysis is likewise answered with -32601, and the resulting response is
the same for every capability gateway — the gateway is never consulted. -/
theorem c5_unknown_method_and_tool (gw gw2 : Gateway) (m tname : String)
    (params : Option Json) (inputs idv : Json)
    (hm1 : m ≠ "initialize") (hm2 : m ≠ "tools/list")
    (hm3 : m ≠ "tools/call") (hm4 : m ≠ "resources/list")
    (hn1 : tname ≠ "run_inference") (hn2 : tname ≠ "data_analysis") :
    (dispatch gw { jsonrpc := "2.0", method := m, params := params, id := some idv }).error =
      some { code := -32601, message := "Method not found: " ++ m, data := none } ∧
    (dispatch gw (toolCallReq tname inputs idv)).error =
      some { code := -32601,
             message := "Method not found: " ++
               ("Tool " ++ apos ++ tname ++ apos ++ " not found"),
             data := none } ∧
    dispatch gw (toolCallReq tname inputs idv) =
      dispatch gw2 (toolCallReq tname inputs idv) := by
  have h1 := dispatchResult_unknown gw
    { jsonrpc := "2.0", method := m, params := params, id := some idv } hm1 hm2 hm3 hm4
  have h2 : dispatchResult gw (toolCallReq tname inputs idv) =
      .error (.server (.methodNotFound
        ("Tool " ++ apos ++ tname ++ apos ++ " not found"))) := by
    rw [show dispatchResult gw (toolCallReq tname inputs idv) =
        handle_tools_call gw (some (.obj [("name", .str tname), ("inputs", inputs)]))
        from rfl]
    exact handle_tools_call_unknown gw tname inputs hn1 hn2
  have h3 : dispatchResult gw2 (toolCallReq tname inputs idv) =
      .error (.server (.methodNotFound
        ("Tool " ++ apos ++ tname ++ apos ++ " not found"))) := by
    rw [show dispatchResult gw2 (toolCallReq tname inputs idv) =
        handle_tools_call gw2 (some (.obj [("name", .str tname), ("inputs", inputs)]))
        from rfl]
    exact handle_tools_call_unknown gw2 tname inputs hn1 hn2
  refine ⟨?_, ?_, ?_⟩
  · rw [dispatch_error gw _ _ h1]
    rfl
  · rw [dispatch_error gw _ _ h2]
    rfl
  · rw [dispatch_error gw _ _ h2, dispatch_error gw2 _ _ h3]

/-- Concrete instantiation of c5_unknown_method_and_tool. -/
theorem c5_unknown_method_and_tool_witness :
    (dispatch trivialGateway
      { jsonrpc := "2.0", method := "foo", params := none, id := some (.num 1) }).error =
      some { code := -32601, message := "Method not found: " ++ "foo", data := none } ∧
    (dispatch trivialGateway (toolCallReq "bar" (.obj []) (.num 1))).error =
      some { code := -32601,
             message := "Method not found: " ++
               ("Tool " ++ apos ++ "bar" ++ apos ++ " not found"),
             data := none } ∧
    dispatch trivialGateway (toolCallReq "bar" (.obj []) (.num 1)) =
      dispatch failingGateway (toolCallReq "bar" (.obj []) (.num 1)) :=
  c5_unknown_method_and_tool trivialGateway failingGateway "foo" "bar" none (.obj [])
    (.num 1) (by decide) (by decide) (by decide) (by decide) (by decide) (by decide)

-- Claim C6

/-- Claim C6 counterexample: a tools/call of run_inference whose inputs object
has no string-valued prompt field and also no string-valued model field; the
code validates model first, so the -32602 message names model and never
mentions prompt, refuting the claim, which asserts a message naming prompt for
every input lacking prompt. -/
theorem c6_counterexample :
    (dispatch trivialGateway (toolCallReq "run_inference" (.obj []) (.num 3))).error =
      some { code := -32602,
             message := "Invalid parameters for method " ++ apos ++ "run_inference" ++
               apos ++ ": " ++
               ("Missing or invalid " ++ apos ++ "model" ++ apos ++ " field"),
             data := none } ∧
    strContains
      ("Invalid parameters for method " ++ apos ++ "run_inference" ++ apos ++ ": " ++
        ("Missing or invalid " ++ apos ++ "model" ++ apos ++ " field")) "prompt" = false :=
  ⟨rfl, rfl⟩

/-- Claim C6 amended: a tools/call of run_inference whose inputs carry a
string-valued model field but no string-valued prompt field is answered with
-32602 and a message naming both prompt and run_inference; when model is also
missing or not a string, the -32602 message names model instead. -/
theorem c6_missing_prompt (gw : Gateway) (inputs idv : Json) (m : String)
    (hmodel : (inputs.index "model").asStr = some m)
    (hprompt : (inputs.index "prompt").asStr = none) :
    (dispatch gw (toolCallReq "run_inference" inputs idv)).error =
      some { code := -32602,
             message := "Invalid parameters for method " ++ apos ++ "run_inference" ++
               apos ++ ": " ++
               ("Missing or invalid " ++ apos ++ "prompt" ++ apos ++ " field"),
             data := none } ∧
    strContains
      ("Invalid parameters for method " ++ apos ++ "run_inference" ++ apos ++ ": " ++
        ("Missing or invalid " ++ apos ++ "prompt" ++ apos ++ " field")) "prompt" = true ∧
    strContains
      ("Invalid parameters for method " ++ apos ++ "run_inference" ++ apos ++ ": " ++
        ("Missing or invalid " ++ apos ++ "prompt" ++ apos ++ " field"))
      "run_inference" = true := by
  have hr : dispatchResult gw (toolCallReq "run_inference" inputs idv) =
      .error (.server (.invalidParameters "run_inference"
        ("Missing or invalid " ++ apos ++ "prompt" ++ apos ++ " field"))) := by
    rw [show dispatchResult gw (toolCallReq "run_inference" inputs idv) =
        run_inference gw inputs from rfl]
    unfold run_inference
    rw [hmodel, hprompt]
  refine ⟨?_, rfl, rfl⟩
  rw [dispatch_error gw _ _ hr]
  rfl

/-- Concrete instantiation of c6_missing_prompt. -/
theorem c6_missing_prompt_witness :
    (dispatch trivialGateway (toolCallReq "run_inference"
      (.obj [("model", .str "m1")]) (.num 1))).error =
      some { code := -32602,
             message := "Invalid parameters for method " ++ apos ++ "run_inference" ++
               apos ++ ": " ++
               ("Missing or invalid " ++ apos ++ "prompt" ++ apos ++ " field"),
             data := none } ∧
    strContains
      ("Invalid parameters for method " ++ apos ++ "run_inference" ++ apos ++ ": " ++
        ("Missing or invalid " ++ apos ++ "prompt" ++ apos ++ " field")) "prompt" = true ∧
    strContains
      ("Invalid parameters for method " ++ apos ++ "run_inference" ++ apos ++ ": " ++
        ("Missing or invalid " ++ apos ++ "prompt" ++ apos ++ " field"))
      "run_inference" = true :=
  c6_missing_prompt trivialGateway (.obj [("model", .str "m1")]) (.num 1) "m1" rfl rfl

-- Claim C7

/-- Claim C7: whenever the gateway reports an application failure (a
ServerError::ToolError, which is what ApiClient::handle_response produces for
every non-success backend status) while executing a tools/call such as
data_analysis, the response carries code -32000 and its message is exactly the
gateway failure text; moreover the text handle_response builds embeds the
backend error body, so the surfaced message is never generic. -/
theorem c7_gateway_failure (gw : Gateway) (inputs d o idv : Json) (s : String)
    (r : HttpResponse)
    (hd : inputs.getKey "data" = some d) (ho : inputs.getKey "ops" = some o)
    (hgw : gw.dataAnalysis d o = .error (.server (.toolError s)))
    (hst : ¬ (200 ≤ r.status ∧ r.status ≤ 299)) :
    (dispatch gw (toolCallReq "data_analysis" inputs idv)).error =
      some { code := -32000, message := s, data := none } ∧
    handle_response r = .error (.server (.toolError
      ("API request failed with status " ++ toString r.status ++ ": " ++ r.bodyText))) ∧
    strContains
      ("API request failed with status " ++ toString r.status ++ ": " ++ r.bodyText)
      r.bodyText = true := by
  have hr : dispatchResult gw (toolCallReq "data_analysis" inputs idv) =
      .error (.server (.toolError s)) := by
    rw [show dispatchResult gw (toolCallReq "data_analysis" inputs idv) =
        data_analysis gw inputs from rfl]
    unfold data_analysis
    rw [hd, ho]
    exact hgw
  refine ⟨?_, ?_, ?_⟩
  · rw [dispatch_error gw _ _ hr]
    rfl
  · unfold handle_response
    rw [if_neg hst]
  · exact strContains_append_right _ _

/-- Concrete instantiation of c7_gateway_failure. -/
theorem c7_gateway_failure_witness :
    (dispatch failingGateway (toolCallReq "data_analysis"
      (.obj [("data", .arr []), ("ops", .arr [])]) (.num 4))).error =
      some { code := -32000, message := "backend exploded", data := none } ∧
    handle_response { status := 500, bodyJson := none, bodyText := "boom" } =
      .error (.server (.toolError
        ("API request failed with status " ++ toString (500 : Nat) ++ ": " ++ "boom"))) ∧
    strContains
      ("API request failed with status " ++ toString (500 : Nat) ++ ": " ++ "boom")
      "boom" = true :=
  c7_gateway_failure failingGateway (.obj [("data", .arr []), ("ops", .arr [])])
    (.arr []) (.arr []) (.num 4) "backend exploded"
    { status := 500, bodyJson := none, bodyText := "boom" } rfl rfl rfl (by decide)

-- Claim C8

/-- Claim C8 counterexample: a body that is valid JSON but lacks the required
method envelope field (while carrying jsonrpc and an id) is answered with a
-32700 parse-error response, not -32600: serde rejects the envelope inside
from_str, before dispatch can ever see it, refuting the claim at this
concrete input. -/
theorem c8_counterexample :
    responsesForBody trivialGateway
      (some (.obj [("jsonrpc", .str "2.0"), ("id", .num 1)])) =
      [parseErrorResponse "missing field method"] ∧
    (parseErrorResponse "missing field method").error =
      some { code := -32700, message := "Parse error: " ++ "missing field method",
             data := none } ∧
    (-32700 : Int) ≠ -32600 :=
  ⟨rfl, rfl, by decide⟩

/-- Claim C8 amended: a message body that is valid JSON but structurally
invalid as a JsonRpcRequest envelope is answered with code -32700 (parse
error, id null), not -32600. The dispatcher does map
ServerError::InvalidJsonRpcRequest to -32600, but nothing in the server
constructs that variant, so the arm is unreachable. -/
theorem c8_envelope_invalid_yields_32700 (gw : Gateway) (j : Json) (e : String)
    (h : decodeRequest j = .error e) :
    responsesForBody gw (some j) = [parseErrorResponse e] ∧
    (parseErrorResponse e).error =
      some { code := -32700, message := "Parse error: " ++ e, data := none } ∧
    errCodeMsg (.server (.invalidJsonRpcRequest e)) = (-32600, e) := by
  refine ⟨?_, rfl, rfl⟩
  simp [responsesForBody, decodeBody, h]

/-- Concrete instantiation of c8_envelope_invalid_yields_32700. -/
theorem c8_envelope_invalid_yields_32700_witness :
    responsesForBody trivialGateway (some (.obj [("method", .str "initialize")])) =
      [parseErrorResponse "missing field jsonrpc"] ∧
    (parseErrorResponse "missing field jsonrpc").error =
      some { code := -32700, message := "Parse error: " ++ "missing field jsonrpc",
             data := none } ∧
    errCodeMsg (.server (.invalidJsonRpcRequest "missing field jsonrpc")) =
      (-32600, "missing field jsonrpc") :=
  c8_envelope_invalid_yields_32700 trivialGateway
    (.obj [("method", .str "initialize")]) "missing field jsonrpc" rfl

-- Claim C10

/-- Claim C10: a tools/call whose params are absent or do not deserialize into
the name/inputs shape is answered with the generic internal error code -32603
(not -32602), because the serde error is not a ServerError and falls through
to the catch-all mapping arm; the same holds for resources/list params that do
not deserialize (for example, missing uri). -/
theorem c10_params_decode_failure (gw : Gateway) (params params2 : Option Json)
    (idv : Json) (msg msg2 : String)
    (h1 : decodeToolsCallParams (params.getD .null) = .error msg)
    (h2 : decodeResourcesListParams (params2.getD .null) = .error msg2) :
    (dispatch gw { jsonrpc := "2.0", method := "tools/call", params := params,
                   id := some idv }).error =
      some { code := -32603, message := msg, data := none } ∧
    (dispatch gw { jsonrpc := "2.0", method := "resources/list", params := params2,
                   id := some idv }).error =
      some { code := -32603, message := msg2, data := none } := by
  have hr1 : dispatchResult gw { jsonrpc := "2.0", method := "tools/call",
                                 params := params, id := some idv } = .error (.other msg) := by
    rw [show dispatchResult gw { jsonrpc := "2.0", method := "tools/call",
                                 params := params, id := some idv } =
        handle_tools_call gw params from rfl]
    unfold handle_tools_call
    rw [h1]
  have hr2 : dispatchResult gw { jsonrpc := "2.0", method := "resources/list",
                                 params := params2, id := some idv } = .error (.other msg2) := by
    rw [show dispatchResult gw { jsonrpc := "2.0", method := "resources/list",
                                 params := params2, id := some idv } =
        handle_resources_list gw params2 from rfl]
    unfold handle_resources_list
    rw [h2]
  refine ⟨?_, ?_⟩
  · rw [dispatch_error gw _ _ hr1]
    rfl
  · rw [dispatch_error gw _ _ hr2]
    rfl

/-- Concrete instantiation of c10_params_decode_failure: params absent in both
requests. -/
theorem c10_params_decode_failure_witness :
    (dispatch trivialGateway { jsonrpc := "2.0", method := "tools/call",
                               params := none, id := some (.num 1) }).error =
      some { code := -32603,
             message := "invalid type, expected struct ToolsCallParams",
             data := none } ∧
    (dispatch trivialGateway { jsonrpc := "2.0", method := "resources/list",
                               params := none, id := some (.num 1) }).error =
      some { code := -32603,
             message := "invalid type, expected struct ResourcesListParams",
             data := none } :=
  c10_params_decode_failure trivialGateway none none (.num 1)
    "invalid type, expected struct ToolsCallParams"
    "invalid type, expected struct ResourcesListParams" rfl rfl

-- Claim C9

/-- Claim C9 counterexample: a valid response (exactly one of result/error
present) whose result is the JSON null value does not survive the
encode/decode round trip: the serialized result field holds JSON null, which
the serde Option field decodes back to an absent result, refuting the claim
at this concrete input. -/
theorem c9_counterexample :
    decodeResponse (encodeResponse c9Resp) =
      .ok { jsonrpc := "2.0", result := none, error := none, id := .num 1 } ∧
    c9Resp.result = some Json.null ∧
    ((c9Resp.result.isSome ^^ c9Resp.error.isSome) = true) ∧
    decodeResponse (encodeResponse c9Resp) ≠ .ok c9Resp := by
  refine ⟨rfl, rfl, rfl, ?_⟩
  intro h
  rw [show decodeResponse (encodeResponse c9Resp) =
      .ok { jsonrpc := "2.0", result := none, error := none, id := .num 1 } from rfl] at h
  have h2 := Except.ok.inj h
  have h3 := congrArg JsonRpcResponse.result h2
  simp [c9Resp] at h3

/-- Claim C9 amended: encoding then decoding a valid JsonRpcResponse (exactly
one of result/error present) reproduces the same field values, provided the
present result is not the JSON null value and, when an error is present, its
data field is not the JSON null value and its code lies in i32 range (which a
Rust i32 always does); a JSON-null result or error-data instead decodes back
as absent. -/
theorem c9_roundtrip (r : JsonRpcResponse)
    (hval : (r.result.isSome ^^ r.error.isSome) = true)
    (hres : r.result ≠ some Json.null)
    (herr : ∀ e, r.error = some e →
      e.data ≠ some Json.null ∧ i32InRange e.code = true) :
    decodeResponse (encodeResponse r) = .ok r := by
  obtain ⟨ver, res, err, idv⟩ := r
  cases res with
  | some v =>
    cases err with
    | some e => simp at hval
    | none =>
      have hv : v ≠ Json.null := fun hnull => hres (by rw [hnull])
      have h1 : decodeResponse (encodeResponse ⟨ver, some v, none, idv⟩) =
          .ok ⟨ver, decodeOptValue (some v), none, idv⟩ := rfl
      rw [h1, decodeOptValue_of_ne_null v hv]
  | none =>
    cases err with
    | none => simp at hval
    | some e =>
      obtain ⟨ecode, emsg, edata⟩ := e
      obtain ⟨hdata, hcode⟩ := herr ⟨ecode, emsg, edata⟩ rfl
      cases edata with
      | none =>
        have h2 : decodeJsonRpcError
            (.obj [("code", .num ecode), ("message", .str emsg)]) =
            .ok ⟨ecode, emsg, none⟩ := by
          show (if i32InRange ecode = true then
              (.ok ⟨ecode, emsg, none⟩ : Except String JsonRpcError)
            else .error "number out of range for i32") = .ok ⟨ecode, emsg, none⟩
          rw [hcode]
          rfl
        show (match decodeJsonRpcError
            (.obj [("code", .num ecode), ("message", .str emsg)]) with
          | .ok e2 => (.ok ⟨ver, none, some e2, idv⟩ : Except String JsonRpcResponse)
          | .error msg => .error msg) = .ok ⟨ver, none, some ⟨ecode, emsg, none⟩, idv⟩
        rw [h2]
      | some d =>
        have hd2 : d ≠ Json.null := fun hnull => (hdata (by rw [hnull]))
        have h2 : decodeJsonRpcError
            (.obj [("code", .num ecode), ("message", .str emsg), ("data", d)]) =
            .ok ⟨ecode, emsg, some d⟩ := by
          show (if i32InRange ecode = true then
              (.ok ⟨ecode, emsg, decodeOptValue (some d)⟩ : Except String JsonRpcError)
            else .error "number out of range for i32") = .ok ⟨ecode, emsg, some d⟩
          rw [hcode, decodeOptValue_of_ne_null d hd2]
          rfl
        show (match decodeJsonRpcError
            (.obj [("code", .num ecode), ("message", .str emsg), ("data", d)]) with
          | .ok e2 => (.ok ⟨ver, none, some e2, idv⟩ : Except String JsonRpcResponse)
          | .error msg => .error msg) = .ok ⟨ver, none, some ⟨ecode, emsg, some d⟩, idv⟩
        rw [h2]

/-- Concrete instantiation of c9_roundtrip. -/
theorem c9_roundtrip_witness :
    decodeResponse (encodeResponse
      { jsonrpc := "2.0", result := some (.num 7), error := none, id := .num 1 }) =
      .ok { jsonrpc := "2.0", result := some (.num 7), error := none, id := .num 1 } :=
  c9_roundtrip
    { jsonrpc := "2.0", result := some (.num 7), error := none, id := .num 1 }
    rfl (fun h => Json.noConfusion (Option.some.inj h))
    (fun _ he => Option.noConfusion he)

end Aionr2
